import Mathlib

/-
Verification of the GF2Device signal-parameter encoding and
device-control-sequencing layer (gf2device.cpp / gf2device.h).

The embedding models the external CP2130 Bridge as a recording mock: every
chip-select operation, SPI write, GPIO write/read and sleep performed by a
GF2Device operation is appended to an event trace, and SPI transport errors
can be injected through a fault flag so that error-propagation behaviour can
be stated.  C++ `float` values are modelled exactly as rationals, with an
explicit NaN constructor (`Flt.nan`) reproducing the IEEE semantics of the
comparisons the source performs (every ordered comparison against NaN is
false); the result of the undefined float-to-integer cast of NaN is modelled
by an unspecified parameter carried in the state (`nanCast`).
-/

namespace GF2

/-- Address of the endpoint assuming the OUT direction (EPOUT in gf2device.cpp). -/
def EPOUT : Nat := 0x01

/-- Mask for the FREQ0 register. -/
def FREQ0 : Nat := 0x40

/-- Mask for the FREQ1 register. -/
def FREQ1 : Nat := 0x80

/-- Mask for the PHASE0 register. -/
def PHASE0 : Nat := 0xc0

/-- Mask for the PHASE1 register. -/
def PHASE1 : Nat := 0xe0

/-- Quantum related to the 10-bit resolution of the AD5310 DAC. -/
def AQUANTUM : Nat := 1023

/-- Quantum related to the 28-bit frequency resolution of the AD9834. -/
def FQUANTUM : Nat := 268435456

/-- The 80MHz clock, in kHz (MCLK in gf2device.cpp). -/
def MCLK : ℚ := 80000

/-- Quantum related to the 12-bit phase resolution of the AD9834. -/
def PQUANTUM : Nat := 4096

/-- Minimum amplitude (gf2device.h). -/
def AMPLITUDE_MIN : ℚ := 0

/-- Maximum amplitude (gf2device.h). -/
def AMPLITUDE_MAX : ℚ := 8

/-- Minimum frequency (gf2device.h). -/
def FREQUENCY_MIN : ℚ := 0

/-- Maximum frequency (gf2device.h). -/
def FREQUENCY_MAX : ℚ := 40000

/-- Boolean corresponding to frequency 0 selection (gf2device.h). -/
def FSEL0 : Bool := false

/-- Boolean corresponding to phase 0 selection (gf2device.h). -/
def PSEL0 : Bool := false

/-- A C++ float argument: either NaN or an exactly-represented finite value. -/
inductive Flt where
  | nan : Flt
  | val (q : ℚ) : Flt
deriving DecidableEq

/-- C++ `x < b` on floats: false whenever `x` is NaN (IEEE unordered compare). -/
def Flt.lt : Flt → ℚ → Bool
  | .nan, _ => false
  | .val q, b => decide (q < b)

/-- C++ `x > b` on floats: false whenever `x` is NaN (IEEE unordered compare). -/
def Flt.gt : Flt → ℚ → Bool
  | .nan, _ => false
  | .val q, b => decide (b < q)

/-- Truncation toward zero, the semantics of C++ float-to-integer conversion
and of the integral part used by `std::fmod`. -/
def ftrunc (q : ℚ) : ℤ :=
  if 0 ≤ q then ⌊q⌋ else ⌈q⌉

/-- C++ `std::fmod x y`: `x - y * trunc (x / y)`. -/
def fmod (x y : ℚ) : ℚ :=
  x - y * (ftrunc (x / y) : ℚ)

/-- C++ `std::round`: rounding half away from zero. -/
def cround (q : ℚ) : ℤ :=
  if 0 ≤ q then ⌊q + 1 / 2⌋ else ⌈q - 1 / 2⌉

/-- C++ `static_cast<uint8_t>` of a non-negative integer value. -/
def u8 (n : Nat) : Nat := n % 256

/-- One recorded call to the Bridge (CP2130) from a GF2Device operation. -/
inductive Ev where
  | selCS (ch : Nat) : Ev
  | disCS (ch : Nat) : Ev
  | spiW (bytes : List Nat) (ep : Nat) : Ev
  | sleep (us : Nat) : Ev
  | setG (pin : Nat) (v : Bool) : Ev
  | getG (pin : Nat) : Ev
deriving DecidableEq

/-- The mock Bridge / device state: the accumulated error channel
(`errcnt`, `errstr`), the recorded call trace, the five GPIO pin levels the
GF2 logic drives or reads, an injected SPI transport-fault flag, and the
unspecified value produced by the undefined cast of NaN to an integer. -/
structure St where
  errcnt : Int
  errstr : List String
  events : List Ev
  gpio2 : Bool
  gpio3 : Bool
  gpio4 : Bool
  gpio5 : Bool
  gpio6 : Bool
  spiFault : Bool
  nanCast : Nat
deriving DecidableEq

/-- Bridge `selectCS`: enable one chip select, disabling any others. -/
def selectCS (ch : Nat) (s : St) : St :=
  { s with events := s.events ++ [Ev.selCS ch] }

/-- Bridge `disableCS`. -/
def disableCS (ch : Nat) (s : St) : St :=
  { s with events := s.events ++ [Ev.disCS ch] }

/-- Bridge `spiWrite`: records the transfer; when the injected fault flag is
set it reports a transport error through the accumulating error channel,
exactly as the CP2130 class does. -/
def spiWrite (bytes : List Nat) (ep : Nat) (s : St) : St :=
  { s with events := s.events ++ [Ev.spiW bytes ep],
           errcnt := s.errcnt + (if s.spiFault then 1 else 0),
           errstr := s.errstr ++ (if s.spiFault then ["transport error"] else []) }

/-- Blocking `usleep`. -/
def usleep (us : Nat) (s : St) : St :=
  { s with events := s.events ++ [Ev.sleep us] }

/-- Bridge `setGPIO2` (RST signal, RESET pin of the AD9834). -/
def setGPIO2 (v : Bool) (s : St) : St :=
  { s with gpio2 := v, events := s.events ++ [Ev.setG 2 v] }

/-- Bridge `setGPIO3` (SLP signal, SLEEP pin of the AD9834). -/
def setGPIO3 (v : Bool) (s : St) : St :=
  { s with gpio3 := v, events := s.events ++ [Ev.setG 3 v] }

/-- Bridge `setGPIO4` (FSEL signal). -/
def setGPIO4 (v : Bool) (s : St) : St :=
  { s with gpio4 := v, events := s.events ++ [Ev.setG 4 v] }

/-- Bridge `setGPIO5` (PSEL signal). -/
def setGPIO5 (v : Bool) (s : St) : St :=
  { s with gpio5 := v, events := s.events ++ [Ev.setG 5 v] }

/-- Bridge `setGPIO6` (!CMPEN signal, SHDN pin of the TLV3501 comparator). -/
def setGPIO6 (v : Bool) (s : St) : St :=
  { s with gpio6 := v, events := s.events ++ [Ev.setG 6 v] }

/-- Bridge `getGPIO6`: reads the pin and records the access. -/
def getGPIO6 (s : St) : Bool × St :=
  (s.gpio6, { s with events := s.events ++ [Ev.getG 6] })

/-- GF2Device::setWaveGenEnabled: drives GPIO.2 to the inverse of the
requested enabled state. -/
def setWaveGenEnabled (value : Bool) (s : St) : St :=
  setGPIO2 (!value) s

/-- GF2Device::setDACEnabled: drives GPIO.3 to the inverse of the requested
enabled state. -/
def setDACEnabled (value : Bool) (s : St) : St :=
  setGPIO3 (!value) s

/-- GF2Device::selectFrequency: direct drive of GPIO.4. -/
def selectFrequency (fsel : Bool) (s : St) : St :=
  setGPIO4 fsel s

/-- GF2Device::selectPhase: direct drive of GPIO.5. -/
def selectPhase (psel : Bool) (s : St) : St :=
  setGPIO5 psel s

/-- GF2Device::setClockEnabled: drives GPIO.6 to the inverse of the requested
enabled state. -/
def setClockEnabled (value : Bool) (s : St) : St :=
  setGPIO6 (!value) s

/-- GF2Device::isClockEnabled: reads GPIO.6 and inverts it. -/
def isClockEnabled (s : St) : Bool × St :=
  let r := getGPIO6 s
  (!r.1, r.2)

/-- Validation message appended by GF2Device::setAmplitude on a range error. -/
def ampErrMsg : String :=
  "In setAmplitude(): Amplitude must be between 0 and 8.\n"

/-- Validation message appended by GF2Device::setFrequency on a range error. -/
def freqErrMsg : String :=
  "In setFrequency(): Frequency must be between 0 and 40000.\n"

/-- The amplitude code of GF2Device::setAmplitude:
`static_cast<uint16_t>(amplitude * AQUANTUM / AMPLITUDE_MAX + 0.5)`.  For a
finite value the cast truncates; for NaN the cast is undefined and yields the
model parameter (reduced to the uint16 range). -/
def amplitudeCode (nanCast : Nat) : Flt → Nat
  | .nan => nanCast % 65536
  | .val q => (⌊q * (AQUANTUM : ℚ) / AMPLITUDE_MAX + 1 / 2⌋).toNat

/-- The 2-byte frame built by GF2Device::setAmplitude from the amplitude
code: `[0x0f & code >> 6, uint8_t(code << 2)]`. -/
def ampFrame (code : Nat) : List Nat :=
  [u8 (0x0f &&& (code >>> 6)), u8 (code <<< 2)]

/-- GF2Device::setAmplitude. -/
def setAmplitude (amplitude : Flt) (s : St) : St :=
  if amplitude.lt AMPLITUDE_MIN || amplitude.gt AMPLITUDE_MAX then
    { s with errcnt := s.errcnt + 1, errstr := s.errstr ++ [ampErrMsg] }
  else
    let s := selectCS 1 s
    let s := spiWrite (ampFrame (amplitudeCode s.nanCast amplitude)) EPOUT s
    let s := usleep 100 s
    disableCS 1 s

/-- The frequency code of GF2Device::setFrequency:
`static_cast<uint32_t>(frequency * FQUANTUM / MCLK + 0.5)`. -/
def frequencyCode (nanCast : Nat) : Flt → Nat
  | .nan => nanCast % 4294967296
  | .val q => (⌊q * (FQUANTUM : ℚ) / MCLK + 1 / 2⌋).toNat

/-- The 4-byte frame built by GF2Device::setFrequency from the register tag
and the 28-bit frequency code. -/
def freqFrame (fsel : Bool) (code : Nat) : List Nat :=
  [u8 ((if fsel then FREQ1 else FREQ0) ||| (0x3f &&& (code >>> 8))),
   u8 code,
   u8 ((if fsel then FREQ1 else FREQ0) ||| (0x3f &&& (code >>> 22))),
   u8 (code >>> 14)]

/-- GF2Device::setFrequency. -/
def setFrequency (fsel : Bool) (frequency : Flt) (s : St) : St :=
  if frequency.lt FREQUENCY_MIN || frequency.gt FREQUENCY_MAX then
    { s with errcnt := s.errcnt + 1, errstr := s.errstr ++ [freqErrMsg] }
  else
    let s := selectCS 0 s
    let s := spiWrite (freqFrame fsel (frequencyCode s.nanCast frequency)) EPOUT s
    let s := usleep 100 s
    disableCS 0 s

/-- The fold of GF2Device::setPhase and GF2Device::expectedPhase:
`fmod(phase, 360)` shifted by +360 when the remainder is negative. -/
def foldedPhase (p : ℚ) : ℚ :=
  let phaseMod := fmod p 360
  phaseMod + (if phaseMod < 0 then 360 else 0)

/-- The phase code of GF2Device::setPhase:
`static_cast<uint16_t>((phaseMod + (phaseMod < 0 ? 360 : 0)) * PQUANTUM / 360 + 0.5)`. -/
def phaseCode (nanCast : Nat) : Flt → Nat
  | .nan => nanCast % 65536
  | .val q => (⌊foldedPhase q * (PQUANTUM : ℚ) / 360 + 1 / 2⌋).toNat

/-- The 2-byte frame built by GF2Device::setPhase from the register tag and
the phase code. -/
def phaseFrame (psel : Bool) (code : Nat) : List Nat :=
  [u8 ((if psel then PHASE1 else PHASE0) ||| (0x0f &&& (code >>> 8))),
   u8 code]

/-- GF2Device::setPhase (no range validation in the source). -/
def setPhase (psel : Bool) (phase : Flt) (s : St) : St :=
  let s := selectCS 0 s
  let s := spiWrite (phaseFrame psel (phaseCode s.nanCast phase)) EPOUT s
  let s := usleep 100 s
  disableCS 0 s

/-- GF2Device::setSineWave. -/
def setSineWave (s : St) : St :=
  let s := selectCS 0 s
  let s := spiWrite [0x22, 0x00] EPOUT s
  let s := usleep 100 s
  disableCS 0 s

/-- GF2Device::setTriangleWave. -/
def setTriangleWave (s : St) : St :=
  let s := selectCS 0 s
  let s := spiWrite [0x22, 0x02] EPOUT s
  let s := usleep 100 s
  disableCS 0 s

/-- GF2Device::clear, line by line from the source. -/
def clear (s : St) : St :=
  let s := setWaveGenEnabled true s
  let s := selectCS 0 s
  let s := spiWrite [0x22, 0x00] EPOUT s
  let s := usleep 100 s
  let s := setWaveGenEnabled false s
  let s := spiWrite [FREQ0, 0x00, FREQ0, 0x00,
                     FREQ1, 0x00, FREQ1, 0x00,
                     PHASE0, 0x00,
                     PHASE1, 0x00] EPOUT s
  let s := usleep 100 s
  let s := selectCS 1 s
  let s := spiWrite [0x00, 0x00] EPOUT s
  let s := usleep 100 s
  let s := disableCS 1 s
  let s := setDACEnabled true s
  let s := selectFrequency FSEL0 s
  let s := selectPhase PSEL0 s
  let s := setClockEnabled true s
  setWaveGenEnabled true s

/-- GF2Device::stop. -/
def stop (s : St) : St :=
  let s := setWaveGenEnabled false s
  let r := isClockEnabled s
  if r.1 then
    let s := setClockEnabled false r.2
    let s := usleep 10000 s
    setClockEnabled true s
  else r.2

/-- GF2Device::expectedFrequency:
`round(frequency * FQUANTUM / MCLK) * MCLK / FQUANTUM`. -/
def expectedFrequency (frequency : ℚ) : ℚ :=
  (cround (frequency * (FQUANTUM : ℚ) / MCLK) : ℚ) * MCLK / FQUANTUM

/-- Decoding a frequency code back to kHz: `code * MCLK / FQUANTUM`. -/
def decodeFrequency (code : Nat) : ℚ :=
  (code : ℚ) * MCLK / FQUANTUM

/-- GF2Device::expectedPhase:
`round(folded * PQUANTUM / 360) * 360 / PQUANTUM`. -/
def expectedPhase (phase : ℚ) : ℚ :=
  (cround (foldedPhase phase * (PQUANTUM : ℚ) / 360) : ℚ) * 360 / PQUANTUM

/-- An initial mock state with an empty trace, all driven pins low, a chosen
GPIO.6 level (clock pin), a chosen SPI fault flag and NaN-cast parameter. -/
def initSt (g6 fault : Bool) (nc : Nat) : St :=
  { errcnt := 0, errstr := [], events := [], gpio2 := false, gpio3 := false,
    gpio4 := false, gpio5 := false, gpio6 := g6, spiFault := fault,
    nanCast := nc }

/-- The exact Bridge-call trace appended by one call to `clear`. -/
def clearTrace : List Ev :=
  [Ev.setG 2 false, Ev.selCS 0, Ev.spiW [0x22, 0x00] EPOUT, Ev.sleep 100,
   Ev.setG 2 true,
   Ev.spiW [FREQ0, 0x00, FREQ0, 0x00, FREQ1, 0x00, FREQ1, 0x00,
            PHASE0, 0x00, PHASE1, 0x00] EPOUT,
   Ev.sleep 100, Ev.selCS 1, Ev.spiW [0x00, 0x00] EPOUT, Ev.sleep 100,
   Ev.disCS 1, Ev.setG 3 false, Ev.setG 4 false, Ev.setG 5 false,
   Ev.setG 6 false, Ev.setG 2 false]

/-- Keeps SPI writes, GPIO toggles and delays; drops chip-select management. -/
def sigEv : Ev → Bool
  | Ev.spiW _ _ => true
  | Ev.setG _ _ => true
  | Ev.sleep _ => true
  | _ => false

/-- C1: for every finite frequency outside [0, 40000] and any register-select
flag, setFrequency increments the error counter, appends the validation
message, and performs no bus operation at all: the resulting state differs
from the input state only in the error channel. -/
theorem setFrequency_out_of_range_rejected (s : St) (fsel : Bool) (f : ℚ)
    (h : f < 0 ∨ 40000 < f) :
    setFrequency fsel (Flt.val f) s =
      { s with errcnt := s.errcnt + 1, errstr := s.errstr ++ [freqErrMsg] } := by
  have hc : ((Flt.val f).lt FREQUENCY_MIN || (Flt.val f).gt FREQUENCY_MAX) = true := by
    rcases h with h | h <;>
      simp [Flt.lt, Flt.gt, FREQUENCY_MIN, FREQUENCY_MAX, h]
  simp [setFrequency, hc]

/-- Witness for C1 at frequency −1 with the FREQ0 flag. -/
theorem setFrequency_out_of_range_rejected_witness :
    setFrequency false (Flt.val (-1)) (initSt false false 0) =
      { initSt false false 0 with errcnt := 1, errstr := [freqErrMsg] } := by
  have h := setFrequency_out_of_range_rejected (initSt false false 0) false (-1)
    (Or.inl (by norm_num))
  simpa [initSt] using h

/-- C2: clear appends exactly `clearTrace` to the recorded Bridge-call
sequence, and that trace, restricted to SPI writes, GPIO toggles and delays,
is precisely: wave-gen enable (reset pin low), control-word write, delay,
reset pin high, 12-byte zeroing write, delay, 2-byte zeroing write, delay,
DAC enable, frequency-0 selection, phase-0 selection, clock enable, wave-gen
enable — with the 12-byte write on channel 0 and the 2-byte write on channel
1 as shown by the chip-select events of `clearTrace`. -/
theorem clear_call_sequence (s : St) :
    (clear s).events = s.events ++ clearTrace ∧
    clearTrace.filter sigEv =
      [Ev.setG 2 false, Ev.spiW [0x22, 0x00] EPOUT, Ev.sleep 100,
       Ev.setG 2 true,
       Ev.spiW [FREQ0, 0x00, FREQ0, 0x00, FREQ1, 0x00, FREQ1, 0x00,
                PHASE0, 0x00, PHASE1, 0x00] EPOUT,
       Ev.sleep 100, Ev.spiW [0x00, 0x00] EPOUT, Ev.sleep 100,
       Ev.setG 3 false, Ev.setG 4 false, Ev.setG 5 false, Ev.setG 6 false,
       Ev.setG 2 false] := by
  constructor
  · simp [clear, clearTrace, setWaveGenEnabled, setGPIO2, selectCS, spiWrite,
      usleep, disableCS, setDACEnabled, setGPIO3, selectFrequency, setGPIO4,
      selectPhase, setGPIO5, setClockEnabled, setGPIO6, FSEL0, PSEL0]
  · decide

/-- C5: stop first drives the reset pin high (wave generator disabled), reads
the clock pin, and toggles the clock off, sleeps 10 ms and toggles it back on
exactly when the clock was enabled (GPIO.6 low); when the clock was already
disabled no clock toggle happens, and in no case does the appended trace
contain a wave-gen re-enable (reset pin driven low). -/
theorem stop_behavior (s : St) :
    (stop s).events = s.events ++
      ([Ev.setG 2 true, Ev.getG 6] ++
        (if s.gpio6 then []
         else [Ev.setG 6 true, Ev.sleep 10000, Ev.setG 6 false])) ∧
    Ev.setG 2 false ∉
      ([Ev.setG 2 true, Ev.getG 6] ++
        (if s.gpio6 then []
         else [Ev.setG 6 true, Ev.sleep 10000, Ev.setG 6 false])) := by
  cases h : s.gpio6 <;>
    simp [stop, setWaveGenEnabled, setGPIO2, isClockEnabled, getGPIO6,
      setClockEnabled, setGPIO6, usleep, h]

/-- C9: with a NaN argument both range comparisons are false, so neither
setAmplitude nor setFrequency reports a ValidationError; each proceeds with
the full select / SPI-write / delay / deselect sequence, the written code
being derived from the unspecified NaN cast, and the error counter moves only
by the injected transport fault of the SPI write. -/
theorem nan_bypasses_validation (s : St) (fsel : Bool) :
    (Flt.nan.lt AMPLITUDE_MIN = false ∧ Flt.nan.gt AMPLITUDE_MAX = false ∧
     Flt.nan.lt FREQUENCY_MIN = false ∧ Flt.nan.gt FREQUENCY_MAX = false) ∧
    (setAmplitude Flt.nan s).events =
      s.events ++ [Ev.selCS 1, Ev.spiW (ampFrame (s.nanCast % 65536)) EPOUT,
                   Ev.sleep 100, Ev.disCS 1] ∧
    (setAmplitude Flt.nan s).errcnt =
      s.errcnt + (if s.spiFault then 1 else 0) ∧
    (setFrequency fsel Flt.nan s).events =
      s.events ++ [Ev.selCS 0,
                   Ev.spiW (freqFrame fsel (s.nanCast % 4294967296)) EPOUT,
                   Ev.sleep 100, Ev.disCS 0] ∧
    (setFrequency fsel Flt.nan s).errcnt =
      s.errcnt + (if s.spiFault then 1 else 0) := by
  refine ⟨⟨rfl, rfl, rfl, rfl⟩, ?_, ?_, ?_, ?_⟩ <;>
    simp [setAmplitude, setFrequency, Flt.lt, Flt.gt, amplitudeCode,
      frequencyCode, selectCS, spiWrite, usleep, disableCS]

/-- The fold performed by setPhase and expectedPhase is exactly the
fractional part of `p / 360`, scaled back by 360. -/
theorem foldedPhase_eq_fract (p : ℚ) :
    foldedPhase p = 360 * Int.fract (p / 360) := by
  have hp : 360 * (p / 360) = p := by field_simp
  unfold foldedPhase fmod ftrunc
  set t := p / 360 with htdef
  by_cases h : 0 ≤ t
  · rw [if_pos h]
    show p - 360 * (⌊t⌋ : ℚ) +
        (if p - 360 * (⌊t⌋ : ℚ) < 0 then 360 else 0) = 360 * Int.fract t
    have h1 : (⌊t⌋ : ℚ) ≤ t := Int.floor_le t
    have hnn : ¬ (p - 360 * (⌊t⌋ : ℚ) < 0) := by push_neg; linarith
    rw [if_neg hnn, Int.fract]
    linarith
  · rw [if_neg h]
    show p - 360 * (⌈t⌉ : ℚ) +
        (if p - 360 * (⌈t⌉ : ℚ) < 0 then 360 else 0) = 360 * Int.fract t
    have h1 : t ≤ (⌈t⌉ : ℚ) := Int.le_ceil t
    have h2 : (⌈t⌉ : ℚ) < t + 1 := Int.ceil_lt_add_one t
    by_cases hneg : p - 360 * (⌈t⌉ : ℚ) < 0
    · rw [if_pos hneg]
      have hlt : t < (⌈t⌉ : ℚ) := by nlinarith
      have hfl : ⌊t⌋ = ⌈t⌉ - 1 := by
        have ha : ⌊t⌋ < ⌈t⌉ := by
          have h3 : (⌊t⌋ : ℚ) ≤ t := Int.floor_le t
          exact_mod_cast lt_of_le_of_lt h3 hlt
        have hb : (⌈t⌉ - 1 : ℤ) ≤ ⌊t⌋ := by
          apply Int.le_floor.mpr
          push_cast
          linarith
        omega
      rw [Int.fract, hfl]
      push_cast
      linarith
    · rw [if_neg hneg]
      have hge : (⌈t⌉ : ℚ) ≤ t := by nlinarith [not_lt.mp hneg]
      have heq : t = (⌈t⌉ : ℚ) := le_antisymm h1 hge
      have hfr : Int.fract t = 0 := by
        rw [heq]; exact Int.fract_intCast ⌈t⌉
      rw [hfr]
      nlinarith [not_lt.mp hneg]

/-- The fold lands in [0, 360): lower bound. -/
theorem foldedPhase_nonneg (p : ℚ) : 0 ≤ foldedPhase p := by
  rw [foldedPhase_eq_fract]
  exact mul_nonneg (by norm_num) (Int.fract_nonneg _)

/-- The fold lands in [0, 360): strict upper bound. -/
theorem foldedPhase_lt_360 (p : ℚ) : foldedPhase p < 360 := by
  rw [foldedPhase_eq_fract]
  have := Int.fract_lt_one (p / 360)
  linarith

/-- The fold is periodic with period 360. -/
theorem foldedPhase_add_360 (p : ℚ) : foldedPhase (p + 360) = foldedPhase p := by
  rw [foldedPhase_eq_fract, foldedPhase_eq_fract]
  have ht : (p + 360) / 360 = p / 360 + 1 := by field_simp
  rw [ht]
  congr 1
  have h1 : Int.fract (p / 360 + (1 : ℤ)) = Int.fract (p / 360) :=
    Int.fract_add_int (p / 360) 1
  simp only [Int.cast_one] at h1
  exact h1

/-- C8: expectedPhase is periodic with period 360 degrees. -/
theorem expectedPhase_periodic (p : ℚ) :
    expectedPhase (p + 360) = expectedPhase p := by
  unfold expectedPhase
  rw [foldedPhase_add_360]

/-- Evaluation of the fold at the boundary input 359.99. -/
theorem foldedPhase_35999 : foldedPhase (35999 / 100) = 35999 / 100 := by
  rw [foldedPhase_eq_fract]
  rw [show (35999 : ℚ) / 100 / 360 = 35999 / 36000 by norm_num]
  rw [Int.fract_eq_self.mpr ⟨by norm_num, by norm_num⟩]
  norm_num

/-- C7 counterexample: at phase 359.99 the fold stays below 360 but the
rounding step carries the quantized value up to the full quantum, so
`expectedPhase` returns exactly 360, outside the claimed half-open interval
[0, 360). -/
theorem expectedPhase_reaches_360 :
    expectedPhase (35999 / 100) = 360 ∧
    ¬ expectedPhase (35999 / 100) < 360 := by
  have hP : ((PQUANTUM : ℕ) : ℚ) = 4096 := by norm_num [PQUANTUM]
  have h2 : expectedPhase ((35999 : ℚ) / 100) = 360 := by
    unfold expectedPhase
    rw [foldedPhase_35999, hP]
    have hq : (35999 : ℚ) / 100 * 4096 / 360 = 4607872 / 1125 := by norm_num
    rw [hq]
    have hc : cround ((4607872 : ℚ) / 1125) = 4096 := by
      unfold cround
      rw [if_pos (by norm_num)]
      rw [Int.floor_eq_iff]
      constructor <;> norm_num
    rw [hc]
    norm_num
  exact ⟨h2, by rw [h2]; norm_num⟩

/-- C7 amended: for every real phase input, expectedPhase lies in the closed
interval [0, 360]; the upper endpoint 360 is attainable (see the
counterexample), so the interval cannot be half-open. -/
theorem expectedPhase_mem_Icc (p : ℚ) :
    0 ≤ expectedPhase p ∧ expectedPhase p ≤ 360 := by
  have hP : ((PQUANTUM : ℕ) : ℚ) = 4096 := by norm_num [PQUANTUM]
  have h0 := foldedPhase_nonneg p
  have h1 := foldedPhase_lt_360 p
  unfold expectedPhase
  rw [hP]
  set y := foldedPhase p * 4096 / 360 with hy
  have hy0 : 0 ≤ y := by
    rw [hy]
    positivity
  have hy1 : y < 4096 := by
    rw [hy, div_lt_iff₀ (by norm_num : (0:ℚ) < 360)]
    nlinarith
  unfold cround
  rw [if_pos hy0]
  have hfl : ⌊y + 1 / 2⌋ ≤ 4096 := by
    have hlt : y + 1 / 2 < 4097 := by linarith
    have hle : (⌊y + 1 / 2⌋ : ℚ) ≤ y + 1 / 2 := Int.floor_le _
    have : (⌊y + 1 / 2⌋ : ℚ) < 4097 := lt_of_le_of_lt hle hlt
    exact_mod_cast Int.lt_add_one_iff.mp (by exact_mod_cast this)
  have hfl0 : (0 : ℤ) ≤ ⌊y + 1 / 2⌋ := Int.floor_nonneg.mpr (by linarith)
  have hc0 : (0 : ℚ) ≤ (⌊y + 1 / 2⌋ : ℚ) := by exact_mod_cast hfl0
  have hc1 : (⌊y + 1 / 2⌋ : ℚ) ≤ 4096 := by exact_mod_cast hfl
  constructor
  · positivity
  · rw [div_le_iff₀ (by norm_num : (0:ℚ) < 4096)]
    nlinarith

/-- Evaluation of the setPhase code at the boundary input 359.99. -/
theorem phaseCode_35999 (nc : Nat) :
    phaseCode nc (Flt.val (35999 / 100)) = 4096 := by
  have hP : ((PQUANTUM : ℕ) : ℚ) = 4096 := by norm_num [PQUANTUM]
  show (⌊foldedPhase (35999 / 100) * (PQUANTUM : ℚ) / 360 + 1 / 2⌋).toNat = 4096
  rw [foldedPhase_35999, hP]
  have hq : (35999 : ℚ) / 100 * 4096 / 360 + 1 / 2 = 9216869 / 2250 := by
    norm_num
  rw [hq]
  have hfl : ⌊(9216869 : ℚ) / 2250⌋ = 4096 := by
    rw [Int.floor_eq_iff]
    constructor <;> norm_num
  rw [hfl]
  rfl

/-- C10 counterexample: at the finite phase input 359.99 the computed code is
4096, which does not fit 12 bits, and the 0x0f mask on its high byte discards
the set carry bit. -/
theorem phaseCode_exceeds_12_bits :
    phaseCode 0 (Flt.val (35999 / 100)) = 4096 ∧
    ¬ phaseCode 0 (Flt.val (35999 / 100)) ≤ 4095 ∧
    0x0f &&& (phaseCode 0 (Flt.val (35999 / 100)) >>> 8) ≠
      phaseCode 0 (Flt.val (35999 / 100)) >>> 8 := by
  have h := phaseCode_35999 0
  refine ⟨h, ?_, ?_⟩ <;> rw [h] <;> decide

/-- C10 amended: for every finite float phase input the code is at most 4096
(4095 is not the exact bound); whenever the code is within 12 bits the 0x0f
mask is lossless, and in the boundary case 4096 the mask drops the carry bit,
so the transmitted 12-bit field always carries the code reduced mod 4096. -/
theorem phaseCode_le_4096 (nc : Nat) (p : ℚ) :
    phaseCode nc (Flt.val p) ≤ 4096 ∧
    0x0f &&& (phaseCode nc (Flt.val p) >>> 8) =
      (phaseCode nc (Flt.val p) % 4096) >>> 8 ∧
    phaseCode nc (Flt.val p) % 256 = (phaseCode nc (Flt.val p) % 4096) % 256 := by
  have hP : ((PQUANTUM : ℕ) : ℚ) = 4096 := by norm_num [PQUANTUM]
  have h0 := foldedPhase_nonneg p
  have h1 := foldedPhase_lt_360 p
  have hb : phaseCode nc (Flt.val p) ≤ 4096 := by
    unfold phaseCode
    rw [hP]
    set y := foldedPhase p * 4096 / 360 with hy
    have hy0 : 0 ≤ y := by rw [hy]; positivity
    have hy1 : y < 4096 := by
      rw [hy, div_lt_iff₀ (by norm_num : (0:ℚ) < 360)]
      nlinarith
    have hfl : ⌊y + 1 / 2⌋ ≤ 4096 := by
      have hlt : y + 1 / 2 < 4097 := by linarith
      have hle : (⌊y + 1 / 2⌋ : ℚ) ≤ y + 1 / 2 := Int.floor_le _
      have hcast : (⌊y + 1 / 2⌋ : ℚ) < 4097 := lt_of_le_of_lt hle hlt
      exact_mod_cast Int.lt_add_one_iff.mp (by exact_mod_cast hcast)
    exact Int.toNat_le.mpr (by exact_mod_cast hfl)
  refine ⟨hb, ?_, ?_⟩ <;>
    rcases Nat.lt_or_ge (phaseCode nc (Flt.val p)) 4096 with hlt | hge
  · rw [Nat.mod_eq_of_lt hlt]
    have hsm : phaseCode nc (Flt.val p) >>> 8 < 16 := by
      rw [Nat.shiftRight_eq_div_pow]
      omega
    have hmask : ∀ m, m < 16 → 0x0f &&& m = m := by decide
    exact hmask _ hsm
  · have he : phaseCode nc (Flt.val p) = 4096 := le_antisymm hb hge
    have hdec : (0x0f &&& ((4096 : Nat) >>> 8)) = ((4096 : Nat) % 4096) >>> 8 := by
      decide
    simpa [he] using hdec
  · rw [Nat.mod_eq_of_lt hlt]
  · have he : phaseCode nc (Flt.val p) = 4096 := le_antisymm hb hge
    simp [he]

/-- C4: for every in-range frequency, decoding the code computed by
setFrequency gives exactly expectedFrequency, and the quantization error is
at most MCLK / (2 * FQUANTUM) kHz. -/
theorem frequency_roundtrip (nc : Nat) (f : ℚ) (h0 : 0 ≤ f) (_h1 : f ≤ 40000) :
    decodeFrequency (frequencyCode nc (Flt.val f)) = expectedFrequency f ∧
    |expectedFrequency f - f| ≤ MCLK / (2 * (FQUANTUM : ℚ)) := by
  have hQ : (0:ℚ) < (FQUANTUM : ℚ) := by norm_num [FQUANTUM]
  have hM : (0:ℚ) < MCLK := by norm_num [MCLK]
  have hx0 : 0 ≤ f * (FQUANTUM : ℚ) / MCLK := by positivity
  have hfl0 : (0:ℤ) ≤ ⌊f * (FQUANTUM : ℚ) / MCLK + 1 / 2⌋ :=
    Int.floor_nonneg.mpr (by linarith)
  have hcode : ((frequencyCode nc (Flt.val f) : ℕ) : ℚ) =
      (⌊f * (FQUANTUM : ℚ) / MCLK + 1 / 2⌋ : ℚ) := by
    have h := Int.toNat_of_nonneg hfl0
    exact_mod_cast h
  have hcr : cround (f * (FQUANTUM : ℚ) / MCLK) =
      ⌊f * (FQUANTUM : ℚ) / MCLK + 1 / 2⌋ := by
    rw [cround, if_pos hx0]
  constructor
  · unfold decodeFrequency expectedFrequency
    rw [hcode, hcr]
  · unfold expectedFrequency
    rw [hcr, ← round_eq]
    have habs : |(round (f * (FQUANTUM : ℚ) / MCLK) : ℚ) -
        f * (FQUANTUM : ℚ) / MCLK| ≤ 1 / 2 := by
      rw [abs_sub_comm]
      exact abs_sub_round _
    have hQ0 : (FQUANTUM : ℚ) ≠ 0 := ne_of_gt hQ
    have hM0 : MCLK ≠ 0 := ne_of_gt hM
    have hfeq : f * (FQUANTUM : ℚ) / MCLK * MCLK / (FQUANTUM : ℚ) = f := by
      field_simp
    set r := (round (f * (FQUANTUM : ℚ) / MCLK) : ℚ) with hr
    have key : r * MCLK / (FQUANTUM : ℚ) - f =
        (r - f * (FQUANTUM : ℚ) / MCLK) * (MCLK / (FQUANTUM : ℚ)) := by
      field_simp
      ring
    rw [key, abs_mul, abs_of_pos (by positivity : (0:ℚ) < MCLK / (FQUANTUM : ℚ))]
    calc |r - f * (FQUANTUM : ℚ) / MCLK| * (MCLK / (FQUANTUM : ℚ))
        ≤ 1 / 2 * (MCLK / (FQUANTUM : ℚ)) :=
          mul_le_mul_of_nonneg_right habs (by positivity)
      _ = MCLK / (2 * (FQUANTUM : ℚ)) := by ring

/-- Witness for C4 at the in-range frequency 40000 kHz. -/
theorem frequency_roundtrip_witness :
    (0:ℚ) ≤ 40000 ∧ (40000:ℚ) ≤ 40000 ∧
    (decodeFrequency (frequencyCode 0 (Flt.val 40000)) = expectedFrequency 40000 ∧
     |expectedFrequency 40000 - 40000| ≤ MCLK / (2 * (FQUANTUM : ℚ))) :=
  ⟨by norm_num, by norm_num, frequency_roundtrip 0 40000 (by norm_num) (by norm_num)⟩

/-- Modelled from the spec: section 4.2 asserts the frequency frame order
`[tag|bits27..22, bits21..14, tag|bits13..8, bits7..0]`, i.e. the high
14-bit half first.  This definition transcribes those words so the source
frame builder can be compared with it. -/
def specFreqFrame (fsel : Bool) (code : Nat) : List Nat :=
  [(if fsel then FREQ1 else FREQ0) ||| (0x3f &&& (code >>> 22)),
   (code >>> 14) % 256,
   (if fsel then FREQ1 else FREQ0) ||| (0x3f &&& (code >>> 8)),
   code % 256]

/-- The frame order the source actually produces: the tagged low 14-bit half
first (bits 13..8 and 7..0), then the tagged high half (bits 27..22 and
21..14), with the register tag merged into both 16-bit transfers. -/
def lowFirstFrame (fsel : Bool) (code : Nat) : List Nat :=
  [(if fsel then 128 else 64) + (code >>> 8) % 64,
   code % 256,
   (if fsel then 128 else 64) + (code >>> 22) % 64,
   (code >>> 14) % 256]

/-- Masking with 0x3f keeps the low six bits. -/
theorem and63 (x : Nat) : 63 &&& x = x % 64 := by
  have h := Nat.and_pow_two_sub_one_eq_mod x 6
  norm_num at h
  rw [Nat.and_comm]
  exact h

/-- Merging a FREQ register tag into a six-bit payload is plain addition,
and the result fits a byte. -/
theorem tag_byte (tag : Nat) (htag : tag = 64 ∨ tag = 128) (x : Nat) :
    u8 (tag ||| (63 &&& x)) = tag + x % 64 := by
  have h := and63 x
  have hm : x % 64 < 64 := Nat.mod_lt _ (by norm_num)
  rcases htag with h1 | h1 <;> subst h1
  · have ho : ∀ m, m < 64 → 64 ||| m = 64 + m := by decide
    rw [h, ho _ hm, u8, Nat.mod_eq_of_lt (by omega)]
  · have ho : ∀ m, m < 64 → 128 ||| m = 128 + m := by decide
    rw [h, ho _ hm, u8, Nat.mod_eq_of_lt (by omega)]

/-- The source frame builder produces exactly the low-half-first layout, for
every code and both register tags. -/
theorem freqFrame_eq_lowFirst (fsel : Bool) (code : Nat) :
    freqFrame fsel code = lowFirstFrame fsel code := by
  cases fsel
  · show [u8 (FREQ0 ||| (0x3f &&& (code >>> 8))), u8 code,
        u8 (FREQ0 ||| (0x3f &&& (code >>> 22))), u8 (code >>> 14)] =
      [64 + (code >>> 8) % 64, code % 256, 64 + (code >>> 22) % 64,
       (code >>> 14) % 256]
    rw [show FREQ0 = 64 from rfl]
    rw [tag_byte 64 (Or.inl rfl), tag_byte 64 (Or.inl rfl)]
    simp [u8]
  · show [u8 (FREQ1 ||| (0x3f &&& (code >>> 8))), u8 code,
        u8 (FREQ1 ||| (0x3f &&& (code >>> 22))), u8 (code >>> 14)] =
      [128 + (code >>> 8) % 64, code % 256, 128 + (code >>> 22) % 64,
       (code >>> 14) % 256]
    rw [show FREQ1 = 128 from rfl]
    rw [tag_byte 128 (Or.inr rfl), tag_byte 128 (Or.inr rfl)]
    simp [u8]

/-- Evaluation of the frequency code at 40000 kHz: exactly half of the
28-bit quantum. -/
theorem frequencyCode_40000 : frequencyCode 0 (Flt.val 40000) = 134217728 := by
  show (⌊(40000 : ℚ) * (FQUANTUM : ℚ) / MCLK + 1 / 2⌋).toNat = 134217728
  have hq : (40000 : ℚ) * (FQUANTUM : ℚ) / MCLK + 1 / 2 = 268435457 / 2 := by
    norm_num [FQUANTUM, MCLK]
  rw [hq]
  have hfl : ⌊(268435457 : ℚ) / 2⌋ = 134217728 := by
    rw [Int.floor_eq_iff]
    constructor <;> norm_num
  rw [hfl]
  rfl

/-- C3 counterexample: at frequency 40000 with the FREQ0 tag the source
emits the low half first, [0x40, 0x00, 0x60, 0x00], while the claimed order
(high half first) would be [0x60, 0x00, 0x40, 0x00]; the two frames differ. -/
theorem freqFrame_order_refuted :
    freqFrame false (frequencyCode 0 (Flt.val 40000)) = [0x40, 0x00, 0x60, 0x00] ∧
    specFreqFrame false (frequencyCode 0 (Flt.val 40000)) = [0x60, 0x00, 0x40, 0x00] ∧
    freqFrame false (frequencyCode 0 (Flt.val 40000)) ≠
      specFreqFrame false (frequencyCode 0 (Flt.val 40000)) := by
  rw [frequencyCode_40000]
  refine ⟨?_, ?_, ?_⟩ <;> decide

/-- C3 amended: for every in-range frequency and register-select flag, the
4-byte frame setFrequency writes is, in order, [tag | bits 13..8, bits 7..0,
tag | bits 27..22, bits 21..14] of the 28-bit code: the low 14-bit half
first, then the high half, with the same tag in both halves. -/
theorem setFrequency_frame_low_half_first (g6 fault : Bool) (nc : Nat)
    (fsel : Bool) (f : ℚ) (h0 : 0 ≤ f) (h1 : f ≤ 40000) :
    (setFrequency fsel (Flt.val f) (initSt g6 fault nc)).events =
      [Ev.selCS 0,
       Ev.spiW (lowFirstFrame fsel (frequencyCode nc (Flt.val f))) EPOUT,
       Ev.sleep 100, Ev.disCS 0] := by
  have hn1 : ¬ (f < 0) := not_lt.mpr h0
  have hn2 : ¬ (40000 < f) := not_lt.mpr h1
  have hc : ((Flt.val f).lt FREQUENCY_MIN || (Flt.val f).gt FREQUENCY_MAX) = false := by
    simp [Flt.lt, Flt.gt, FREQUENCY_MIN, FREQUENCY_MAX, hn1, hn2]
  unfold setFrequency
  rw [hc]
  simp [selectCS, spiWrite, usleep, disableCS, initSt, freqFrame_eq_lowFirst]

/-- Witness for the amended C3 at frequency 40000 kHz with the FREQ0 flag. -/
theorem setFrequency_frame_low_half_first_witness :
    (0:ℚ) ≤ 40000 ∧ (40000:ℚ) ≤ 40000 ∧
    (setFrequency false (Flt.val 40000) (initSt false false 0)).events =
      [Ev.selCS 0,
       Ev.spiW (lowFirstFrame false (frequencyCode 0 (Flt.val 40000))) EPOUT,
       Ev.sleep 100, Ev.disCS 0] :=
  ⟨by norm_num, by norm_num,
   setFrequency_frame_low_half_first false false 0 false 40000
     (by norm_num) (by norm_num)⟩

/-- Recognizes the fixed 100-microsecond settle delay. -/
def isSleep100 : Ev → Bool
  | Ev.sleep n => n == 100
  | _ => false

/-- Recognizes an event that releases chip select `c`: disabling it, or
selecting a different channel (which deselects all others). -/
def deselects (c : Nat) : Ev → Bool
  | Ev.disCS c2 => c == c2
  | Ev.selCS c2 => !(c == c2)
  | _ => false

/-- The claimed per-write bracket at position `i`: if the event is an SPI
write, it must be immediately preceded by a chip-select selection and
immediately followed by the 100 microsecond delay and then a release of that
chip select. -/
def checkAt (tr : List Ev) (i : Nat) : Bool :=
  match tr[i]? with
  | some (Ev.spiW _ _) =>
    match tr[i-1]?, tr[i+1]?, tr[i+2]? with
    | some (Ev.selCS c), some e1, some e2 => isSleep100 e1 && deselects c e2
    | _, _, _ => false
  | _ => true

/-- Every SPI write in the trace sits in a select / write / delay / deselect
bracket. -/
def csStrict (tr : List Ev) : Bool := (List.range tr.length).all (checkAt tr)

/-- The chip select that is active after processing a trace. -/
def selAfter : Option Nat → List Ev → Option Nat
  | cur, [] => cur
  | _, Ev.selCS c :: r => selAfter (some c) r
  | cur, Ev.disCS c :: r => selAfter (if cur == some c then none else cur) r
  | cur, _ :: r => selAfter cur r

/-- Every SPI write in the trace is immediately followed by the 100
microsecond delay and happens while some chip select is active. -/
def writesDelayedOwned (tr : List Ev) : Bool :=
  (List.range tr.length).all fun i =>
    match tr[i]? with
    | some (Ev.spiW _ _) =>
      (match tr[i+1]? with
       | some e1 => isSleep100 e1
       | none => false) && (selAfter none (tr.take i)).isSome
    | _ => true

/-- C6 counterexample: the trace of clear violates the per-write
select / write / delay / deselect bracket: its 12-byte zeroing write is
immediately preceded by the reset-pin toggle, not by a chip-select call, and
the control-word write's delay is followed by that toggle rather than a
deselection. -/
theorem clear_breaks_write_bracket :
    csStrict (clear (initSt false false 0)).events = false := by decide

/-- C6 amended: setAmplitude, setFrequency and setPhase (with in-range
finite arguments), setSineWave and setTriangleWave each perform exactly the
select / write / 100 microsecond delay / deselect bracket around their single
SPI write, whatever the injected SPI fault, the NaN-cast parameter and the
initial clock pin; inside clear every SPI write is still immediately followed
by the 100 microsecond delay and is issued while the owning chip select is
active, and every chip select has been released when clear finishes, but
channel 0 is selected once for two consecutive writes, so the strict
per-write bracket does not hold there. -/
theorem register_write_bracket (g6 fault : Bool) (nc : Nat) (fsel psel : Bool)
    (a f p : ℚ) (ha0 : 0 ≤ a) (ha1 : a ≤ 8) (hf0 : 0 ≤ f) (hf1 : f ≤ 40000) :
    csStrict (setAmplitude (Flt.val a) (initSt g6 fault nc)).events = true ∧
    csStrict (setFrequency fsel (Flt.val f) (initSt g6 fault nc)).events = true ∧
    csStrict (setPhase psel (Flt.val p) (initSt g6 fault nc)).events = true ∧
    csStrict (setSineWave (initSt g6 fault nc)).events = true ∧
    csStrict (setTriangleWave (initSt g6 fault nc)).events = true ∧
    writesDelayedOwned clearTrace = true ∧
    selAfter none clearTrace = none := by
  refine ⟨?_, ?_, rfl, rfl, rfl, by decide, by decide⟩
  · have hc : ((Flt.val a).lt AMPLITUDE_MIN || (Flt.val a).gt AMPLITUDE_MAX)
        = false := by
      simp [Flt.lt, Flt.gt, AMPLITUDE_MIN, AMPLITUDE_MAX,
        not_lt.mpr ha0, not_lt.mpr ha1]
    unfold setAmplitude
    rw [hc]
    rfl
  · have hc : ((Flt.val f).lt FREQUENCY_MIN || (Flt.val f).gt FREQUENCY_MAX)
        = false := by
      simp [Flt.lt, Flt.gt, FREQUENCY_MIN, FREQUENCY_MAX,
        not_lt.mpr hf0, not_lt.mpr hf1]
    unfold setFrequency
    rw [hc]
    rfl

/-- Witness for the amended C6 with fault injection enabled, amplitude 4,
frequency 1000 and phase 90. -/
theorem register_write_bracket_witness :
    (0:ℚ) ≤ 4 ∧ (4:ℚ) ≤ 8 ∧ (0:ℚ) ≤ 1000 ∧ (1000:ℚ) ≤ 40000 ∧
    (csStrict (setAmplitude (Flt.val 4) (initSt false true 0)).events = true ∧
     csStrict (setFrequency false (Flt.val 1000) (initSt false true 0)).events = true ∧
     csStrict (setPhase false (Flt.val 90) (initSt false true 0)).events = true ∧
     csStrict (setSineWave (initSt false true 0)).events = true ∧
     csStrict (setTriangleWave (initSt false true 0)).events = true ∧
     writesDelayedOwned clearTrace = true ∧
     selAfter none clearTrace = none) :=
  ⟨by norm_num, by norm_num, by norm_num, by norm_num,
   register_write_bracket false true 0 false false 4 1000 90
     (by norm_num) (by norm_num) (by norm_num) (by norm_num)⟩

end GF2
